import Mathlib

/-!
Verification development for the MCP gateway core
(`backend/src/gateway.py` together with the request handler in
`backend/src/server.py`).  The Python code is shallowly embedded:
JSON values become an inductive type, the dynamically-typed dictionary
operations become explicit `Except`-valued functions (an `.error` models a
raised Python exception), and the manager's mutable registries become an
explicit state record threaded through the lifecycle functions.
-/

/-- Json values, the universe of Python objects flowing through the
gateway (`None`, booleans, integers, strings, lists, dicts). -/
inductive Json where
  | null : Json
  | bool : Bool → Json
  | num : Int → Json
  | str : String → Json
  | arr : List Json → Json
  | obj : List (String × Json) → Json
deriving Repr

mutual

/-- Structural equality of Json values, Python `==`. -/
def Json.beq : Json → Json → Bool
  | .null, .null => true
  | .bool a, .bool b => a == b
  | .num a, .num b => a == b
  | .str a, .str b => a == b
  | .arr a, .arr b => Json.beqList a b
  | .obj a, .obj b => Json.beqFields a b
  | _, _ => false

/-- Equality of Json lists. -/
def Json.beqList : List Json → List Json → Bool
  | [], [] => true
  | x :: xs, y :: ys => Json.beq x y && Json.beqList xs ys
  | _, _ => false

/-- Equality of Json dict entry lists. -/
def Json.beqFields : List (String × Json) → List (String × Json) → Bool
  | [], [] => true
  | (k, v) :: xs, (l, w) :: ys => k == l && Json.beq v w && Json.beqFields xs ys
  | _, _ => false

end

instance : BEq Json := ⟨Json.beq⟩

/-- Python truthiness of a value (`if x:`): `None`, `False`, `0`, `""`,
`[]` and `{}` are falsy, everything else truthy. -/
def pyTruthy : Json → Bool
  | .null => false
  | .bool b => b
  | .num n => n != 0
  | .str s => s != ""
  | .arr xs => !xs.isEmpty
  | .obj fs => !fs.isEmpty

/-- Boolean contiguous-sublist test over characters, used to model
Python's substring membership operator. -/
def charsInfix (p : List Char) : List Char → Bool
  | [] => p.isEmpty
  | c :: rest => p.isPrefixOf (c :: rest) || charsInfix p rest

/-- Python `k in v`: key membership for a dict, element membership for a
list, substring test for a string; raises `TypeError` otherwise. -/
def pyContainsKey (k : String) : Json → Except Unit Bool
  | .obj fs => .ok (fs.any fun p => p.1 == k)
  | .arr xs => .ok (xs.any fun x => x == Json.str k)
  | .str s => .ok (charsInfix k.toList s.toList)
  | _ => .error ()

/-- Python `v[k]` with a string key: dict indexing, raising `KeyError`
when the key is absent and `TypeError` on every non-dict value. -/
def pyIndex (v : Json) (k : String) : Except Unit Json :=
  match v with
  | .obj fs =>
    match fs.find? (fun p => p.1 == k) with
    | some p => .ok p.2
    | none => .error ()
  | _ => .error ()

/-- Python `v.get(k)`: returns the value or `None` when absent; raises
(`AttributeError`) when `v` is not a dict. -/
def pyGet (v : Json) (k : String) : Except Unit Json :=
  match v with
  | .obj fs =>
    match fs.find? (fun p => p.1 == k) with
    | some p => .ok p.2
    | none => .ok .null
  | _ => .error ()

/-- Python `v.get(k, d)` with an explicit default. -/
def pyGetD (v : Json) (k : String) (d : Json) : Except Unit Json :=
  match v with
  | .obj fs =>
    match fs.find? (fun p => p.1 == k) with
    | some p => .ok p.2
    | none => .ok d
  | _ => .error ()

/-- Python `d[k] = w` on a dict's entry list: overwrite the first entry
with that key, or append a new entry. -/
def setKey (fs : List (String × Json)) (k : String) (w : Json) :
    List (String × Json) :=
  match fs with
  | [] => [(k, w)]
  | (l, v) :: rest =>
    if l == k then (k, w) :: rest else (l, v) :: setKey rest k w

/-- Python `item["_server_id"] = sid` inside the aggregate loop: succeeds
only on dict items, raises `TypeError` otherwise. -/
def tagItem (sid : Int) (item : Json) : Option Json :=
  match item with
  | .obj fs => some (.obj (setKey fs "_server_id" (.num sid)))
  | _ => none

/-- Python `for x in v:` producing the iterated elements: list elements,
dict keys, characters of a string; raises `TypeError` otherwise. -/
def pyIter : Json → Except Unit (List Json)
  | .arr xs => .ok xs
  | .obj fs => .ok (fs.map fun p => Json.str p.1)
  | .str s => .ok (s.toList.map fun c => Json.str (String.singleton c))
  | _ => .error ()

/-- Errors raised by the gateway while routing (the `HTTPException`s
raised in `gateway.py`, plus `pyError` for a Python-level `TypeError` /
`AttributeError` escaping the routing code, and the two errors
`proxy_request` itself can raise).  Exception message text is abstracted
to the constructor. -/
inductive GwError where
  | noSession
  | noProviders
  | missingTarget
  | capabilityNotFound
  | serverNotFound
  | requestFailed
  | pyError
deriving Repr, DecidableEq

/-- The behaviour of `server_manager.proxy_request` as seen by the
router: a function from server id, method and params to either a
response value or a raised exception.  `method` stays a `Json` value
because the Python code passes whatever `request_data.get("method")`
returned. -/
def Proxy : Type := Int → Json → Json → Except GwError Json

/-- Per-server body of the `try` block in `_aggregate_from_servers`
after `proxy_request` succeeded with response `resp`: `none` models an
exception raised while extracting or tagging (the provider is skipped
and nothing is appended), `some items` the list of items appended to
`results`. -/
def aggregateItems (sid : Int) (resp : Json) : Option (List Json) :=
  match pyContainsKey "result" resp with
  | .error _ => none
  | .ok false => some []
  | .ok true =>
    match pyIndex resp "result" with
    | .error _ => none
    | .ok r =>
      match r with
      | .arr xs => xs.mapM (tagItem sid)
      | .obj fs => some [Json.obj (setKey fs "_server_id" (.num sid))]
      | _ => some []

/-- The `for server_id in connected_servers` loop of
`_aggregate_from_servers`, with `acc` the mutable `results` list; any
exception inside the `try` block (a failing `proxy_request` or a failing
extraction/tagging) is caught and the loop continues. -/
def aggregateLoop (proxy : Proxy) (method : Json) (params : Json) :
    List Int → List Json → List Json
  | [], acc => acc
  | sid :: rest, acc =>
    match proxy sid method params with
    | .error _ => aggregateLoop proxy method params rest acc
    | .ok resp =>
      match aggregateItems sid resp with
      | none => aggregateLoop proxy method params rest acc
      | some items => aggregateLoop proxy method params rest (acc ++ items)

/-- `MCPGateway._aggregate_from_servers`: run the aggregation loop over
the session's connected servers and wrap the accumulated items in a
JSON-RPC envelope whose `id` is `params.get("id") if params else None`
(an exception from that `.get` propagates to the caller). -/
def aggregate_from_servers (proxy : Proxy) (connected : List Int)
    (method : Json) (params : Json) : Except GwError Json :=
  match (if pyTruthy params then pyGet params "id" else .ok .null) with
  | .error _ => .error .pyError
  | .ok idv =>
    .ok (.obj [("jsonrpc", .str "2.0"), ("id", idv),
               ("result", .arr (aggregateLoop proxy method params connected []))])

/-- Scan of `for tool in tools: if tool.get("name") == tool_name`:
`.ok true` when a tool with the target name is found (before any entry
whose `.get` raises), `.ok false` when the list is exhausted, `.error`
when a non-dict entry raises first. -/
def scanTools (toolName : Json) : List Json → Except Unit Bool
  | [] => .ok false
  | t :: ts =>
    match pyGet t "name" with
    | .error _ => .error ()
    | .ok v => if v == toolName then .ok true else scanTools toolName ts

/-- The `for server_id in connected_servers` loop of `_route_tool_call`:
probe each server's `tools/list`; every exception inside the `try` block
— including one raised by the forwarded call itself — is caught and the
loop continues with the next server; falling off the loop raises
`Tool not found` (404). -/
def routeToolLoop (proxy : Proxy) (method : Json) (params : Json)
    (toolName : Json) : List Int → Except GwError Json
  | [] => .error .capabilityNotFound
  | sid :: rest =>
    match proxy sid (.str "tools/list") .null with
    | .error _ => routeToolLoop proxy method params toolName rest
    | .ok resp =>
      match pyGetD resp "result" (.arr []) with
      | .error _ => routeToolLoop proxy method params toolName rest
      | .ok tools =>
        match pyIter tools with
        | .error _ => routeToolLoop proxy method params toolName rest
        | .ok ts =>
          match scanTools toolName ts with
          | .error _ => routeToolLoop proxy method params toolName rest
          | .ok false => routeToolLoop proxy method params toolName rest
          | .ok true =>
            match proxy sid method params with
            | .error _ => routeToolLoop proxy method params toolName rest
            | .ok r => .ok r

/-- `MCPGateway._route_tool_call`: extract
`params.get("name") if params else None`, raise 400 `Tool name required`
when the extracted value is falsy, then search the connected servers. -/
def route_tool_call (proxy : Proxy) (connected : List Int)
    (method : Json) (params : Json) : Except GwError Json :=
  match (if pyTruthy params then pyGet params "name" else .ok .null) with
  | .error _ => .error .pyError
  | .ok toolName =>
    if pyTruthy toolName then
      routeToolLoop proxy method params toolName connected
    else
      .error .missingTarget

/-- `MCPGateway._route_to_primary_server`: 400 `No servers connected to
session` on an empty list, otherwise forward to the first connected
server. -/
def route_to_primary_server (proxy : Proxy) (connected : List Int)
    (method : Json) (params : Json) : Except GwError Json :=
  match connected with
  | [] => .error .noProviders
  | sid :: _ => proxy sid method params

/-- In-memory session entry of `MCPGateway.sessions` (only the fields
the router reads). -/
structure GwSession where
  clientType : String
  connected : List Int
deriving Repr

/-- Python `s.startswith(p)`. -/
def pyStartsWith (s p : String) : Bool := p.toList.isPrefixOf s.toList

/-- `MCPGateway.route_request`: 404 `Session not found` for an unknown
session id, then strategy dispatch on the method — aggregation for the
three list methods, capability lookup for methods starting with
`tools/call`, primary-server routing otherwise.  A non-string method
that is not one of the list methods raises (`method.startswith` on a
non-string is an `AttributeError`). -/
def route_request (sessions : List (String × GwSession)) (proxy : Proxy)
    (sessionId : String) (method : Json) (params : Json) :
    Except GwError Json :=
  match sessions.lookup sessionId with
  | none => .error .noSession
  | some sess =>
    if method == Json.str "tools/list" || method == Json.str "resources/list"
        || method == Json.str "prompts/list" then
      aggregate_from_servers proxy sess.connected method params
    else
      match method with
      | .str m =>
        if pyStartsWith m "tools/call" then
          route_tool_call proxy sess.connected method params
        else
          route_to_primary_server proxy sess.connected method params
      | _ => .error .pyError

/-- The `str(e)` text placed in the error envelope by
`handle_mcp_request`; the exact wording is irrelevant to the claims, the
source's detail strings are used for the `HTTPException`s. -/
def errMessage : GwError → String
  | .noSession => "Session not found"
  | .noProviders => "No servers connected to session"
  | .missingTarget => "Tool name required"
  | .capabilityNotFound => "Tool not found"
  | .serverNotFound => "Server not found or inactive"
  | .requestFailed => "Server request failed"
  | .pyError => "TypeError"

/-- `server.handle_mcp_request` for a request arriving on an existing
session: pull `method` and `params` out of the parsed body with `.get`,
route through the gateway, and on any exception build the JSON-RPC error
envelope whose `id` is `request_data.get("id")`.  The outer `.error`
models an exception escaping the handler itself (only possible when the
body is not a dict, so that the `.get` inside the `except` block raises
too). -/
def handle_mcp_request (sessions : List (String × GwSession)) (proxy : Proxy)
    (sessionId : String) (reqData : Json) : Except Unit Json :=
  let outcome : Except GwError Json :=
    match pyGet reqData "method" with
    | .error _ => .error .pyError
    | .ok method =>
      match pyGet reqData "params" with
      | .error _ => .error .pyError
      | .ok params => route_request sessions proxy sessionId method params
  match outcome with
  | .ok resp => .ok resp
  | .error e =>
    match pyGet reqData "id" with
    | .error _ => .error ()
    | .ok idv =>
      .ok (.obj [("jsonrpc", .str "2.0"), ("id", idv),
                 ("error", .obj [("code", .num (-32000)),
                                 ("message", .str (errMessage e))])])

/-- `models.ServerStatus`. -/
inductive ServerStatus where
  | active | inactive | error | starting | stopping
deriving Repr, DecidableEq

/-- `models.TransportType`. -/
inductive TransportType where
  | stdio | http | sse | streamableHttp
deriving Repr, DecidableEq

/-- The `models.MCPServer` database row, restricted to the fields the
gateway reads or writes. -/
structure MCPServer where
  id : Int
  name : String
  command : String
  args : List String
  transportType : TransportType
  status : ServerStatus
  lastHealthCheck : Option Nat
  autoRestart : Bool
  maxRestarts : Int
  restartCount : Int
deriving Repr, DecidableEq

/-- `MCPServerManager._update_server_status`: look the row up by id
(`.first()`), and if present set its status and refresh
`last_health_check` to now; a missing row is a no-op. -/
def update_server_status (db : List MCPServer) (serverId : Int)
    (status : ServerStatus) (now : Nat) : List MCPServer :=
  match db with
  | [] => []
  | s :: rest =>
    if s.id == serverId then
      { s with status := status, lastHealthCheck := some now } :: rest
    else
      s :: update_server_status rest serverId status now

/-- Kind tag stored in an `active_servers` entry (`"type": "stdio"` or
`"type": "http"`). -/
inductive EntryKind where
  | stdio | http
deriving Repr, DecidableEq

/-- One `active_servers` registry entry: its kind and the identity of
the transport object (subprocess or HTTP client) it holds. -/
structure ActiveEntry where
  kind : EntryKind
  handle : Nat
deriving Repr, DecidableEq

/-- Insert-or-overwrite for a Python dict keyed by server id. -/
def setEntry {α : Type} (l : List (Int × α)) (k : Int) (v : α) :
    List (Int × α) :=
  match l with
  | [] => [(k, v)]
  | (k', v') :: rest =>
    if k' == k then (k, v) :: rest else (k', v') :: setEntry rest k v

/-- `dict.pop(k, None)`: drop the entry with key `k`. -/
def popEntry {α : Type} (l : List (Int × α)) (k : Int) : List (Int × α) :=
  l.filter fun p => p.1 != k

/-- The mutable registries of the global `MCPServerManager`, plus a
fresh-handle supply standing for transport-object allocation and the set
of handles that have been killed/terminated/closed. -/
structure MgrState where
  activeServers : List (Int × ActiveEntry)
  serverProcesses : List (Int × Nat)
  httpClients : List (Int × Nat)
  nextHandle : Nat
  closed : List Nat
deriving Repr

/-- `MCPServerManager._start_stdio_server`.  `spawnOk` is whether
`create_subprocess_exec` succeeds (its exception is caught and turned
into a `False` return), `testOk` the outcome of
`_test_stdio_connection` on the new process (false also covers the
ping timeout, a malformed response line, and an envelope without the
`"jsonrpc"` key).  Note the source stores the new process in
`server_processes` before testing it, and on a failed test kills the
process and returns without touching `server_processes` or the
database row. -/
def start_stdio_server (st : MgrState) (db : List MCPServer)
    (server : MCPServer) (spawnOk : Bool) (testOk : Bool) (now : Nat) :
    MgrState × List MCPServer × Bool :=
  if !spawnOk then (st, db, false)
  else
    let h := st.nextHandle
    let st1 := { st with
      serverProcesses := setEntry st.serverProcesses server.id h,
      nextHandle := h + 1 }
    if testOk then
      let st2 := { st1 with
        activeServers := setEntry st1.activeServers server.id ⟨.stdio, h⟩ }
      (st2, update_server_status db server.id .active now, true)
    else
      ({ st1 with closed := h :: st1.closed }, db, false)

/-- `MCPServerManager._start_http_server`: allocate a client, probe it
(`testOk` is `_test_http_connection`'s outcome); register the client and
set `ACTIVE` only on success, close it on failure. -/
def start_http_server (st : MgrState) (db : List MCPServer)
    (server : MCPServer) (testOk : Bool) (now : Nat) :
    MgrState × List MCPServer × Bool :=
  let h := st.nextHandle
  let st1 := { st with nextHandle := h + 1 }
  if testOk then
    let st2 := { st1 with
      httpClients := setEntry st1.httpClients server.id h,
      activeServers := setEntry st1.activeServers server.id ⟨.http, h⟩ }
    (st2, update_server_status db server.id .active now, true)
  else
    ({ st1 with closed := h :: st1.closed }, db, false)

/-- `MCPServerManager.start_server`: dispatch on the transport type.
All four enum values are handled, so the unsupported-transport branch
and the outer `except` (whose body the inner handlers make unreachable
by catching everything themselves) do not appear. -/
def start_server (st : MgrState) (db : List MCPServer) (server : MCPServer)
    (spawnOk : Bool) (testOk : Bool) (now : Nat) :
    MgrState × List MCPServer × Bool :=
  match server.transportType with
  | .stdio => start_stdio_server st db server spawnOk testOk now
  | _ => start_http_server st db server testOk now

/-- `MCPServerManager.stop_server`.  `closeRaises` is whether the close
action (`process.terminate()` / `await client.aclose()`) raises; the
`except` block then logs and returns `False` before any registry or
database cleanup has happened. -/
def stop_server (st : MgrState) (db : List MCPServer) (serverId : Int)
    (closeRaises : Bool) (now : Nat) : MgrState × List MCPServer × Bool :=
  match st.activeServers.lookup serverId with
  | none => (st, db, true)
  | some entry =>
    if closeRaises then (st, db, false)
    else
      let st1 := { st with
        activeServers := popEntry st.activeServers serverId,
        serverProcesses := popEntry st.serverProcesses serverId,
        httpClients := popEntry st.httpClients serverId,
        closed := entry.handle :: st.closed }
      (st1, update_server_status db serverId .inactive now, true)

/-- `MCPServerManager.health_check`.  `pingOk` is whether
`proxy_request(server_id, "ping")` returned without raising; any
exception from it lands in the `except` block, which marks the row
`ERROR`.  A server id absent from `active_servers` returns `False`
straight from the `try` body, before any ping or database write. -/
def health_check (st : MgrState) (db : List MCPServer) (serverId : Int)
    (pingOk : Bool) (now : Nat) : List MCPServer × Bool :=
  match st.activeServers.lookup serverId with
  | none => (db, false)
  | some _ =>
    if pingOk then (update_server_status db serverId .active now, true)
    else (update_server_status db serverId .error now, false)

/-- The JSON-RPC request object built by `MCPServerManager.proxy_request`
before dispatching to a transport: its `id` is a fresh
`str(uuid.uuid4())` generated by the gateway, not the caller's id. -/
def proxy_request_envelope (freshId : String) (method : Json)
    (params : Json) : Json :=
  .obj [("jsonrpc", .str "2.0"), ("id", .str freshId),
        ("method", method), ("params", params)]

/-- State of one stdio pipe in the concurrency model for
`_proxy_stdio_request`: the FIFO of response lines the provider has
written and the gateway has not yet consumed.  A line is identified by
the id of the request it answers, since the modeled provider answers
each request in arrival order. -/
structure PipeState where
  pending : List String
deriving Repr, DecidableEq

/-- One in-flight `_proxy_stdio_request` call: the id of the request it
wrote (or will write) and the response line its `readline` returned, if
it has read yet. -/
structure SendCall where
  reqId : String
  received : Option String
deriving Repr, DecidableEq

/-- Scheduler events for two concurrent `_proxy_stdio_request` calls A
and B on the same transport.  Each call is the source's two awaited I/O
steps: its `stdin.write`/`drain` (the provider immediately queues the
matching response line) and its `stdout.readline` (which takes the
next line off the shared pipe, with no request-id matching and no lock
serializing it against the other call). -/
inductive SendEv where
  | writeA | writeB | readA | readB
deriving Repr, DecidableEq

/-- Interleaving semantics of two concurrent sends: a `read` on an empty
pipe leaves the caller still waiting (the schedules of interest never
block). -/
def stdioStep (s : PipeState × SendCall × SendCall) (e : SendEv) :
    PipeState × SendCall × SendCall :=
  match s, e with
  | (p, a, b), .writeA => (⟨p.pending ++ [a.reqId]⟩, a, b)
  | (p, a, b), .writeB => (⟨p.pending ++ [b.reqId]⟩, a, b)
  | (p, a, b), .readA =>
    match p.pending with
    | [] => (p, a, b)
    | l :: rest => (⟨rest⟩, { a with received := some l }, b)
  | (p, a, b), .readB =>
    match p.pending with
    | [] => (p, a, b)
    | l :: rest => (⟨rest⟩, a, { b with received := some l })

/-- Run a schedule of events from an empty pipe with neither caller
having read yet. -/
def stdioRun (evs : List SendEv) (idA idB : String) :
    PipeState × SendCall × SendCall :=
  evs.foldl stdioStep (⟨[]⟩, ⟨idA, none⟩, ⟨idB, none⟩)

/-! Specification-side definitions and concrete fixtures used by the
theorems below. -/

/-- Concatenation, in list order, of the item lists produced for each
provider. -/
def concatMap (f : Int → List Json) : List Int → List Json
  | [] => []
  | s :: rest => f s ++ concatMap f rest

/-- Items one provider contributes under the aggregate strategy, per the
spec: the items of a successful provider's result, each tagged with the
provider's identifier; a provider that raised — during the call or while
its items were being tagged — contributes nothing. -/
def providerContribution (proxy : Proxy) (method params : Json)
    (sid : Int) : List Json :=
  match proxy sid method params with
  | .error _ => []
  | .ok resp => (aggregateItems sid resp).getD []

/-- Demonstration providers for the aggregate witness: providers 1 and 3
answer with one item each, provider 2 raises. -/
def c1Proxy : Proxy := fun sid _ _ =>
  if sid == 2 then .error .requestFailed
  else .ok (.obj [("jsonrpc", .str "2.0"), ("id", .str "u"),
                  ("result", .arr [.obj [("name", .num sid)]])])

/-- A provider "advertises" the named capability, per the spec sentence:
probing its `tools/list` succeeds and scanning the returned tool list
(as `_route_tool_call` scans it) reaches an entry with that name. -/
def advertises (proxy : Proxy) (toolName : Json) (sid : Int) : Bool :=
  match proxy sid (.str "tools/list") .null with
  | .error _ => false
  | .ok resp =>
    match pyGetD resp "result" (.arr []) with
    | .error _ => false
    | .ok tools =>
      match pyIter tools with
      | .error _ => false
      | .ok ts =>
        match scanTools toolName ts with
        | .ok true => true
        | _ => false

/-- Demonstration providers for the capability-lookup witness: both
providers advertise a tool named `echo`; invocation responses carry the
answering provider's id. -/
def c2Proxy : Proxy := fun sid method _ =>
  if method == Json.str "tools/list" then
    .ok (.obj [("result", .arr [.obj [("name", .str "echo")]])])
  else
    .ok (.obj [("result", .str "handled"), ("by", .num sid)])

/-- Demonstration provider for the routing-precondition witness. -/
def c9Proxy : Proxy := fun sid _ _ => .ok (.obj [("pong", .num sid)])

/-- First database row with the given id, the model of
`db.query(MCPServer).filter(MCPServer.id == server_id).first()`. -/
def dbFind : List MCPServer → Int → Option MCPServer
  | [], _ => none
  | s :: rest, serverId =>
    if s.id == serverId then some s else dbFind rest serverId

/-- Fixture for C3: provider 1 with `auto_restart` set and a restart
budget (3) that is not exhausted (counter 0). -/
def c3Srv : MCPServer := ⟨1, "srv", "run", [], .stdio, .active, some 10, true, 3, 0⟩

def c3St : MgrState := ⟨[(1, ⟨.stdio, 0⟩)], [(1, 0)], [], 1, []⟩

/-- The §8 scenario provider: `command="echo"` with a one-line JSON
argument; its stdio handshake fails (`testOk = false` below). -/
def c4Server : MCPServer :=
  ⟨1, "echo-server", "echo",
   ["\x7b\"jsonrpc\":\"2.0\",\"id\":1,\"result\":\x7b\x7d\x7d"],
   .stdio, .inactive, none, true, 3, 0⟩

def c4St : MgrState := ⟨[], [], [], 0, []⟩

/-- Fixture for C5: provider 1 is already active with transport handle 5. -/
def c5Server : MCPServer := ⟨1, "srv", "run", [], .stdio, .active, some 10, true, 3, 0⟩

def c5St : MgrState := ⟨[(1, ⟨.stdio, 5⟩)], [(1, 5)], [], 6, []⟩

/-- Fixture for C6: provider 1 is active with transport handle 5 and an
ACTIVE database row. -/
def c6Srv : MCPServer := ⟨1, "srv", "run", [], .stdio, .active, some 10, true, 3, 0⟩

def c6St : MgrState := ⟨[(1, ⟨.stdio, 5⟩)], [(1, 5)], [], 6, []⟩

def c7Sessions : List (String × GwSession) := [("sess-1", ⟨"api", [1]⟩)]

/-- Downstream provider for C7: answers every request with a well-formed
JSON-RPC response (whose id, as for any compliant provider, is the id
the gateway sent it — the gateway-generated uuid, not the caller's). -/
def c7Proxy : Proxy := fun _ _ _ =>
  .ok (.obj [("jsonrpc", .str "2.0"), ("id", .str "srv-uuid"),
             ("result", .arr [])])

/-- The caller's inbound JSON-RPC request: id 42. -/
def c7Request : Json :=
  .obj [("jsonrpc", .str "2.0"), ("id", .num 42),
        ("method", .str "tools/list"), ("params", .obj [])]

/-! Theorems.  Each claim's theorem is preceded by a doc comment naming
the claim. -/

theorem aggregateLoop_append (proxy : Proxy) (method params : Json)
    (servers : List Int) (acc : List Json) :
    aggregateLoop proxy method params servers acc =
      acc ++ concatMap (providerContribution proxy method params) servers := by
  induction servers generalizing acc with
  | nil => simp [aggregateLoop, concatMap]
  | cons sid rest ih =>
    unfold aggregateLoop
    cases hp : proxy sid method params with
    | error e =>
      have hcontrib : providerContribution proxy method params sid = [] := by
        unfold providerContribution; rw [hp]
      simp [hp, ih, concatMap, hcontrib]
    | ok resp =>
      cases hi : aggregateItems sid resp with
      | none =>
        have hcontrib : providerContribution proxy method params sid = [] := by
          unfold providerContribution; rw [hp]; simp [hi]
        simp [hp, hi, ih, concatMap, hcontrib]
      | some items =>
        have hcontrib : providerContribution proxy method params sid = items := by
          unfold providerContribution; rw [hp]; simp [hi]
        simp [hp, hi, ih, concatMap, hcontrib]

theorem route_request_list_method (sessions : List (String × GwSession))
    (proxy : Proxy) (sessionId : String) (sess : GwSession)
    (method params : Json)
    (hs : sessions.lookup sessionId = some sess)
    (hm : method = Json.str "tools/list" ∨ method = Json.str "resources/list" ∨
          method = Json.str "prompts/list") :
    route_request sessions proxy sessionId method params =
      aggregate_from_servers proxy sess.connected method params := by
  rcases hm with rfl | rfl | rfl <;> · unfold route_request; rw [hs]; rfl

/-- C1: routing a list-style method through a session aggregates: the
response is a single successful JSON-RPC envelope whose result is the
concatenation, in provider-attachment order, of the items returned by
each successful provider, each item tagged with its originating provider
identifier (`_server_id`); providers that errored contribute nothing. -/
theorem aggregate_strategy (sessions : List (String × GwSession))
    (proxy : Proxy) (sessionId : String) (sess : GwSession)
    (method params idv : Json)
    (hs : sessions.lookup sessionId = some sess)
    (hm : method = Json.str "tools/list" ∨ method = Json.str "resources/list" ∨
          method = Json.str "prompts/list")
    (hid : (if pyTruthy params then pyGet params "id" else Except.ok Json.null)
             = Except.ok idv) :
    route_request sessions proxy sessionId method params =
      Except.ok (Json.obj [("jsonrpc", Json.str "2.0"), ("id", idv),
        ("result", Json.arr
          (concatMap (providerContribution proxy method params)
            sess.connected))]) := by
  rw [route_request_list_method sessions proxy sessionId sess method params hs hm]
  unfold aggregate_from_servers
  rw [hid, aggregateLoop_append]
  rfl

theorem aggregate_strategy_witness :
    route_request [("s", ⟨"api", [1, 2, 3]⟩)] c1Proxy "s"
        (Json.str "tools/list") (Json.obj []) =
      Except.ok (Json.obj [("jsonrpc", Json.str "2.0"), ("id", Json.null),
        ("result", Json.arr
          [Json.obj [("name", Json.num 1), ("_server_id", Json.num 1)],
           Json.obj [("name", Json.num 3), ("_server_id", Json.num 3)]])]) := by
  have h := aggregate_strategy [("s", ⟨"api", [1, 2, 3]⟩)] c1Proxy "s"
    ⟨"api", [1, 2, 3]⟩ (Json.str "tools/list") (Json.obj []) Json.null
    rfl (Or.inl rfl) rfl
  rw [h]; rfl

theorem routeToolLoop_cons_not_adv (proxy : Proxy) (method params toolName : Json)
    (sid : Int) (rest : List Int)
    (h : advertises proxy toolName sid = false) :
    routeToolLoop proxy method params toolName (sid :: rest) =
      routeToolLoop proxy method params toolName rest := by
  unfold advertises at h
  conv_lhs => unfold routeToolLoop
  cases hp : proxy sid (Json.str "tools/list") Json.null with
  | error e => rfl
  | ok resp =>
    rw [hp] at h
    simp only at h
    cases hg : pyGetD resp "result" (Json.arr []) with
    | error e => simp [hg]
    | ok tools =>
      rw [hg] at h
      simp only at h
      cases hi : pyIter tools with
      | error e => simp [hg, hi]
      | ok ts =>
        rw [hi] at h
        simp only at h
        cases hs : scanTools toolName ts with
        | error e => simp [hg, hi, hs]
        | ok found =>
          cases found with
          | false => simp [hg, hi, hs]
          | true => rw [hs] at h; simp at h

theorem routeToolLoop_cons_adv (proxy : Proxy) (method params toolName : Json)
    (sid : Int) (rest : List Int) (r : Json)
    (h : advertises proxy toolName sid = true)
    (hfwd : proxy sid method params = Except.ok r) :
    routeToolLoop proxy method params toolName (sid :: rest) = Except.ok r := by
  unfold advertises at h
  conv_lhs => unfold routeToolLoop
  cases hp : proxy sid (Json.str "tools/list") Json.null with
  | error e => rw [hp] at h; simp at h
  | ok resp =>
    rw [hp] at h
    simp only at h
    cases hg : pyGetD resp "result" (Json.arr []) with
    | error e => rw [hg] at h; simp at h
    | ok tools =>
      rw [hg] at h
      simp only at h
      cases hi : pyIter tools with
      | error e => rw [hi] at h; simp at h
      | ok ts =>
        rw [hi] at h
        simp only at h
        cases hs : scanTools toolName ts with
        | error e => rw [hs] at h; simp at h
        | ok found =>
          cases found with
          | false => rw [hs] at h; simp at h
          | true => simp [hg, hi, hs, hfwd]

theorem routeToolLoop_find_none (proxy : Proxy) (method params toolName : Json)
    (servers : List Int)
    (h : servers.find? (fun sid => advertises proxy toolName sid) = none) :
    routeToolLoop proxy method params toolName servers =
      Except.error .capabilityNotFound := by
  induction servers with
  | nil => rfl
  | cons a rest ih =>
    rw [List.find?_eq_none] at h
    have ha : advertises proxy toolName a = false := by
      have := h a (List.mem_cons_self a rest)
      simpa using this
    rw [routeToolLoop_cons_not_adv proxy method params toolName a rest ha]
    apply ih
    rw [List.find?_eq_none]
    intro x hx
    exact h x (List.mem_cons_of_mem a hx)

theorem routeToolLoop_find_some (proxy : Proxy) (method params toolName : Json)
    (servers : List Int) (sid : Int) (r : Json)
    (hf : servers.find? (fun sid => advertises proxy toolName sid) = some sid)
    (hfwd : proxy sid method params = Except.ok r) :
    routeToolLoop proxy method params toolName servers = Except.ok r := by
  induction servers with
  | nil => simp at hf
  | cons a rest ih =>
    cases hb : advertises proxy toolName a with
    | false =>
      rw [routeToolLoop_cons_not_adv proxy method params toolName a rest hb]
      apply ih
      rwa [List.find?_cons_of_neg] at hf
      simp [hb]
    | true =>
      have : a = sid := by
        rw [List.find?_cons_of_pos] at hf
        · exact Option.some.inj hf
        · simp [hb]
      subst this
      exact routeToolLoop_cons_adv proxy method params toolName a rest r hb hfwd

/-- C2: capability-lookup routing.  With `toolName` the value the source
extracts from the request parameters (`params.get("name") if params else
None`): a falsy target fails with `MissingTarget` (400 `Tool name
required`); a truthy target is searched for in provider-attachment
order, the invocation is forwarded to the first attached provider that
advertises it (deterministic first match, also when several providers
advertise the same name) and that provider's successful response is
returned; if no attached provider advertises it the call fails with
`CapabilityNotFound` (404). -/
theorem capability_lookup (proxy : Proxy) (connected : List Int)
    (method params toolName : Json)
    (hname : (if pyTruthy params then pyGet params "name" else Except.ok Json.null)
               = Except.ok toolName) :
    (pyTruthy toolName = false →
        route_tool_call proxy connected method params =
          Except.error .missingTarget)
  ∧ (pyTruthy toolName = true →
        (connected.find? (fun sid => advertises proxy toolName sid) = none →
            route_tool_call proxy connected method params =
              Except.error .capabilityNotFound)
      ∧ (∀ sid r,
            connected.find? (fun sid => advertises proxy toolName sid) = some sid →
            proxy sid method params = Except.ok r →
            route_tool_call proxy connected method params = Except.ok r)) := by
  unfold route_tool_call
  rw [hname]
  refine ⟨fun hfalse => ?_, fun htrue => ⟨fun hnone => ?_, fun sid r hf hfwd => ?_⟩⟩
  · simp [hfalse]
  · simp only [htrue, if_true]
    exact routeToolLoop_find_none proxy method params toolName connected hnone
  · simp only [htrue, if_true]
    exact routeToolLoop_find_some proxy method params toolName connected sid r hf hfwd

theorem capability_lookup_witness :
    route_tool_call c2Proxy [1, 2] (Json.str "tools/call")
        (Json.obj [("name", Json.str "echo")]) =
      Except.ok (Json.obj [("result", Json.str "handled"), ("by", Json.num 1)])
  ∧ route_tool_call c2Proxy [1, 2] (Json.str "tools/call") (Json.obj []) =
      Except.error .missingTarget := by
  constructor
  · exact ((capability_lookup c2Proxy [1, 2] (Json.str "tools/call")
      (Json.obj [("name", Json.str "echo")]) (Json.str "echo") rfl).2 rfl).2
      1 (Json.obj [("result", Json.str "handled"), ("by", Json.num 1)]) rfl rfl
  · exact (capability_lookup c2Proxy [1, 2] (Json.str "tools/call")
      (Json.obj []) Json.null rfl).1 rfl

/-- C9: routing preconditions.  An unknown session identifier fails with
`NoSession` (404 `Session not found`); a primary-fallback method (one of
the string methods that is neither a list method nor a `tools/call`
method) in a session with an empty attached-provider list fails with the
well-formed error `NoProvidersAttached` (400 `No servers connected to
session`); with a non-empty list the request is forwarded verbatim to
the first-attached provider. -/
theorem routing_preconditions (sessions : List (String × GwSession))
    (proxy : Proxy) (sessionId : String) (method : Json) (params : Json) :
    (sessions.lookup sessionId = none →
        route_request sessions proxy sessionId method params =
          Except.error .noSession)
  ∧ (∀ sess m, sessions.lookup sessionId = some sess →
        method = Json.str m →
        (m == "tools/list" || m == "resources/list" || m == "prompts/list")
            = false →
        pyStartsWith m "tools/call" = false →
        ((sess.connected = [] →
            route_request sessions proxy sessionId method params =
              Except.error .noProviders)
         ∧ (∀ s rest, sess.connected = s :: rest →
              route_request sessions proxy sessionId method params =
                proxy s method params))) := by
  constructor
  · intro h
    unfold route_request
    rw [h]
  · rintro sess m hs rfl hlist hpre
    have hc : (Json.str m == Json.str "tools/list"
        || Json.str m == Json.str "resources/list"
        || Json.str m == Json.str "prompts/list") = false := hlist
    constructor
    · intro hempty
      unfold route_request
      rw [hs, hc]
      simp only [Bool.false_eq_true, if_false]
      rw [hpre]
      simp only [Bool.false_eq_true, if_false]
      unfold route_to_primary_server
      rw [hempty]
    · intro s rest hcons
      unfold route_request
      rw [hs, hc]
      simp only [Bool.false_eq_true, if_false]
      rw [hpre]
      simp only [Bool.false_eq_true, if_false]
      unfold route_to_primary_server
      rw [hcons]

theorem routing_preconditions_witness :
    route_request [] c9Proxy "nope" (Json.str "ping") Json.null =
      Except.error .noSession
  ∧ route_request [("s", ⟨"api", []⟩)] c9Proxy "s" (Json.str "ping")
      Json.null = Except.error .noProviders
  ∧ route_request [("s", ⟨"api", [7]⟩)] c9Proxy "s" (Json.str "ping")
      Json.null = Except.ok (Json.obj [("pong", Json.num 7)]) := by
  refine ⟨?_, ?_, ?_⟩
  · exact (routing_preconditions [] c9Proxy "nope" (Json.str "ping")
      Json.null).1 rfl
  · exact ((routing_preconditions [("s", ⟨"api", []⟩)] c9Proxy "s"
      (Json.str "ping") Json.null).2 ⟨"api", []⟩ "ping" rfl rfl rfl rfl).1 rfl
  · exact (((routing_preconditions [("s", ⟨"api", [7]⟩)] c9Proxy "s"
      (Json.str "ping") Json.null).2 ⟨"api", [7]⟩ "ping" rfl rfl rfl rfl).2
      7 [] rfl).trans rfl

/-- C10: for a server identifier with no live registered transport,
`health_check` returns failure immediately and performs no state change:
the database rows — statuses and last-health-check timestamps — are
returned exactly as given (and the registries are not touched at all,
`health_check` only reads them). -/
theorem health_check_unregistered_frame (st : MgrState)
    (db : List MCPServer) (serverId : Int) (pingOk : Bool) (now : Nat)
    (h : st.activeServers.lookup serverId = none) :
    health_check st db serverId pingOk now = (db, false) := by
  unfold health_check
  rw [h]

theorem health_check_unregistered_frame_witness :
    health_check ⟨[], [], [], 0, []⟩
        [⟨1, "srv", "cmd", [], .stdio, .active, none, true, 3, 0⟩]
        1 true 99 =
      ([⟨1, "srv", "cmd", [], .stdio, .active, none, true, 3, 0⟩], false) :=
  health_check_unregistered_frame ⟨[], [], [], 0, []⟩
    [⟨1, "srv", "cmd", [], .stdio, .active, none, true, 3, 0⟩] 1 true 99 rfl

theorem dbFind_update (db : List MCPServer) (serverId : Int)
    (status : ServerStatus) (now : Nat) :
    dbFind (update_server_status db serverId status now) serverId =
      (dbFind db serverId).map fun s =>
        { s with status := status, lastHealthCheck := some now } := by
  induction db with
  | nil => rfl
  | cons s rest ih =>
    cases hb : (s.id == serverId) <;>
      simp [update_server_status, dbFind, hb, ih]

theorem update_restartCounts (db : List MCPServer) (serverId : Int)
    (status : ServerStatus) (now : Nat) :
    (update_server_status db serverId status now).map MCPServer.restartCount =
      db.map MCPServer.restartCount := by
  induction db with
  | nil => rfl
  | cons s rest ih =>
    cases hb : (s.id == serverId) <;>
      simp [update_server_status, hb, ih]

/-- C3 counterexample: a registered provider with `auto_restart` set and
a restart budget that is not exhausted fails a health check; the code
marks the row ERROR and refreshes the timestamp, but — against the
claim — it schedules no restart and never increments the restart
counter, which stays at its old value. -/
theorem health_check_restart_counterexample :
    c3Srv.autoRestart = true
  ∧ c3Srv.restartCount < c3Srv.maxRestarts
  ∧ health_check c3St [c3Srv] 1 false 100 =
      ([{ c3Srv with status := .error, lastHealthCheck := some 100 }], false)
  ∧ ({ c3Srv with status := .error, lastHealthCheck := some 100 }).restartCount
      = c3Srv.restartCount :=
  ⟨rfl, by decide, rfl, rfl⟩

/-- C3 (amended): for every registered provider, a successful
healthCheck refreshes the last-health-check timestamp and sets status
ACTIVE; a failed healthCheck transitions the provider to ERROR (also
refreshing the timestamp) and reports failure.  No restart is ever
scheduled and the restart counter of every row is left unchanged,
whatever `auto_restart` and `max_restarts` say — so the counter is
trivially monotonically non-decreasing and never exceeds any budget. -/
theorem health_check_amended (st : MgrState) (db : List MCPServer)
    (serverId : Int) (pingOk : Bool) (now : Nat) (e : ActiveEntry)
    (hreg : st.activeServers.lookup serverId = some e) :
    (health_check st db serverId pingOk now).2 = pingOk
  ∧ dbFind (health_check st db serverId pingOk now).1 serverId =
      (dbFind db serverId).map (fun s =>
        { s with
          status := if pingOk then ServerStatus.active else ServerStatus.error,
          lastHealthCheck := some now })
  ∧ (health_check st db serverId pingOk now).1.map MCPServer.restartCount =
      db.map MCPServer.restartCount := by
  unfold health_check
  rw [hreg]
  cases pingOk with
  | false =>
    exact ⟨rfl, dbFind_update db serverId .error now,
           update_restartCounts db serverId .error now⟩
  | true =>
    exact ⟨rfl, dbFind_update db serverId .active now,
           update_restartCounts db serverId .active now⟩

theorem health_check_amended_witness :
    dbFind (health_check c3St [c3Srv] 1 false 100).1 1 =
      some { c3Srv with status := .error, lastHealthCheck := some 100 }
  ∧ (health_check c3St [c3Srv] 1 false 100).1.map MCPServer.restartCount
      = [0] := by
  have h := health_check_amended c3St [c3Srv] 1 false 100 ⟨.stdio, 0⟩ rfl
  exact ⟨h.2.1.trans rfl, h.2.2.trans rfl⟩

/-- C4: evaluation of `start_server` on a stdio provider whose handshake
fails.  Start returns failure and no `active_servers` entry is created —
but, against the claim, the database row is returned untouched (status
stays INACTIVE, never transitioned to ERROR: the handshake-failure
branch of `_start_stdio_server` returns before any status update and
swallows its own exceptions, so the outer ERROR handler never runs) and
the killed subprocess handle (0) remains registered in
`server_processes`. -/
theorem stdio_start_failure_behavior :
    start_server c4St [c4Server] c4Server true false 50 =
      ({ activeServers := [], serverProcesses := [(1, 0)], httpClients := [],
         nextHandle := 1, closed := [0] }, [c4Server], false)
  ∧ c4Server.status = .inactive
  ∧ (start_server c4St [c4Server] c4Server true false 50).1.serverProcesses.lookup 1
      = some 0 :=
  ⟨rfl, rfl, rfl⟩

theorem lookup_setEntry_self {α : Type} (l : List (Int × α)) (k : Int)
    (v : α) : (setEntry l k v).lookup k = some v := by
  induction l with
  | nil => simp [setEntry, List.lookup]
  | cons p rest ih =>
    obtain ⟨k', v'⟩ := p
    by_cases h : k' = k
    · subst h
      simp [setEntry, List.lookup]
    · have hb : (k' == k) = false := by simp [h]
      have hb' : (k == k') = false := by simp [Ne.symm h]
      simp [setEntry, List.lookup, hb, hb', ih]

theorem lookup_setEntry_ne {α : Type} (l : List (Int × α)) (k x : Int)
    (v : α) (h : x ≠ k) : (setEntry l k v).lookup x = l.lookup x := by
  have hxk : (x == k) = false := by simp [h]
  induction l with
  | nil => simp [setEntry, List.lookup, hxk]
  | cons p rest ih =>
    obtain ⟨k', v'⟩ := p
    by_cases hk : k' = k
    · subst hk
      simp [setEntry, List.lookup, hxk]
    · have hb : (k' == k) = false := by simp [hk]
      by_cases hx : x = k'
      · subst hx
        simp [setEntry, List.lookup, hb]
      · have hb' : (x == k') = false := by simp [hx]
        simp [setEntry, List.lookup, hb, hb', ih]

theorem setEntry_map_fst {α : Type} (l : List (Int × α)) (k : Int) (v : α) :
    ((setEntry l k v).map Prod.fst = l.map Prod.fst ∧ k ∈ l.map Prod.fst)
    ∨ ((setEntry l k v).map Prod.fst = l.map Prod.fst ++ [k]
        ∧ k ∉ l.map Prod.fst) := by
  induction l with
  | nil =>
    right
    refine ⟨by simp [setEntry], by simp⟩
  | cons p rest ih =>
    obtain ⟨k', v'⟩ := p
    by_cases hk : k' = k
    · subst hk
      left
      refine ⟨by simp [setEntry], ?_⟩
      rw [List.map_cons]
      exact List.mem_cons_self _ _
    · have hb : (k' == k) = false := by simp [hk]
      rcases ih with ⟨he, hm⟩ | ⟨he, hm⟩
      · left
        refine ⟨by simp [setEntry, hb, he], ?_⟩
        rw [List.map_cons]
        exact List.mem_cons_of_mem _ hm
      · right
        refine ⟨by simp [setEntry, hb, he], ?_⟩
        rw [List.map_cons]
        intro hmem
        rcases List.mem_cons.1 hmem with h1 | h1
        · exact hk h1.symm
        · exact hm h1

theorem setEntry_keys_nodup {α : Type} (l : List (Int × α)) (k : Int)
    (v : α) (h : (l.map Prod.fst).Nodup) :
    ((setEntry l k v).map Prod.fst).Nodup := by
  rcases setEntry_map_fst l k v with ⟨he, _⟩ | ⟨he, hm⟩
  · rw [he]; exact h
  · rw [he, List.nodup_append]
    simp [h, hm]

/-- C5 counterexample: starting an already-active stdio provider is not
a no-op — a second subprocess is spawned (the transport allocator
advances from 6 to 7), the registry entries are overwritten with the new
transport (handle 6), and the previously live transport (handle 5) is
left unregistered and unclosed. -/
theorem start_idempotence_counterexample :
    start_server c5St [c5Server] c5Server true true 60 =
      ({ activeServers := [(1, ⟨.stdio, 6⟩)], serverProcesses := [(1, 6)],
         httpClients := [], nextHandle := 7, closed := [] },
       [{ c5Server with status := .active, lastHealthCheck := some 60 }], true)
  ∧ (start_server c5St [c5Server] c5Server true true 60).1.nextHandle
      ≠ c5St.nextHandle :=
  ⟨rfl, by decide⟩

/-- C5 (amended): `start_server` has no already-active guard.  For every
stdio provider — in particular one that is already active — a start whose
spawn and handshake succeed returns success, allocates a fresh Transport
(the handle supply advances), and overwrites the provider's
`active_servers` and `server_processes` entries with the new handle; the
entries of every other provider are untouched, and the transport that
was registered before is dropped without being closed (`closed` is
unchanged).  The registries themselves still hold at most one entry per
provider id: key-uniqueness is preserved. -/
theorem start_on_active_amended (st : MgrState) (db : List MCPServer)
    (server : MCPServer) (e : ActiveEntry) (now : Nat)
    (htype : server.transportType = .stdio)
    (hactive : st.activeServers.lookup server.id = some e) :
    (start_server st db server true true now).2.2 = true
  ∧ (start_server st db server true true now).1.activeServers.lookup server.id
      = some ⟨.stdio, st.nextHandle⟩
  ∧ (start_server st db server true true now).1.serverProcesses.lookup server.id
      = some st.nextHandle
  ∧ (∀ x, x ≠ server.id →
      (start_server st db server true true now).1.activeServers.lookup x
        = st.activeServers.lookup x)
  ∧ (start_server st db server true true now).1.nextHandle = st.nextHandle + 1
  ∧ (start_server st db server true true now).1.closed = st.closed
  ∧ ((st.activeServers.map Prod.fst).Nodup →
      ((start_server st db server true true now).1.activeServers.map
        Prod.fst).Nodup) := by
  unfold start_server
  rw [htype]
  unfold start_stdio_server
  refine ⟨rfl, ?_, ?_, ?_, rfl, rfl, ?_⟩
  · exact lookup_setEntry_self st.activeServers server.id ⟨.stdio, st.nextHandle⟩
  · exact lookup_setEntry_self st.serverProcesses server.id st.nextHandle
  · intro x hx
    exact lookup_setEntry_ne st.activeServers server.id x _ hx
  · intro hnd
    exact setEntry_keys_nodup st.activeServers server.id _ hnd

theorem start_on_active_amended_witness :
    (start_server c5St [c5Server] c5Server true true 60).1.activeServers.lookup 1
      = some ⟨.stdio, 6⟩
  ∧ (start_server c5St [c5Server] c5Server true true 60).1.nextHandle = 7
  ∧ (start_server c5St [c5Server] c5Server true true 60).1.closed = [] := by
  have h := start_on_active_amended c5St [c5Server] c5Server ⟨.stdio, 5⟩ 60
    rfl rfl
  exact ⟨h.2.1, h.2.2.2.2.1.trans rfl, h.2.2.2.2.2.1⟩

theorem lookup_popEntry_self {α : Type} (l : List (Int × α)) (k : Int) :
    (popEntry l k).lookup k = none := by
  induction l with
  | nil => rfl
  | cons p rest ih =>
    obtain ⟨k', v'⟩ := p
    by_cases h : k' = k
    · subst h
      simpa [popEntry, List.filter_cons] using ih
    · have hb : (k' != k) = true := by simp [h]
      have hb' : (k == k') = false := by simp [Ne.symm h]
      simpa [popEntry, List.filter_cons, hb, List.lookup, hb'] using ih

/-- C6 counterexample: when the close raises, stop returns failure and
performs no cleanup at all — the registry entry survives and the row is
left ACTIVE, never transitioned to INACTIVE, against "always removes the
registry entry and transitions to INACTIVE regardless of the close
outcome". -/
theorem stop_cleanup_counterexample :
    stop_server c6St [c6Srv] 1 true 70 = (c6St, [c6Srv], false)
  ∧ (stop_server c6St [c6Srv] 1 true 70).1.activeServers.lookup 1
      = some ⟨.stdio, 5⟩
  ∧ c6Srv.status = .active :=
  ⟨rfl, rfl, rfl⟩

/-- C6 (amended): stop of an unregistered provider is a no-op success
(hence a second stop right after a successful stop succeeds and never
errors, changing nothing).  When the provider is registered and the
close succeeds, stop removes the registry entry and sets the row
INACTIVE.  But when the close raises, stop logs, returns failure, and
leaves the registries and the row untouched — cleanup is only reached on
a successful close. -/
theorem stop_server_amended (st : MgrState) (db : List MCPServer)
    (serverId : Int) (closeRaises : Bool) (now : Nat) :
    (st.activeServers.lookup serverId = none →
        stop_server st db serverId closeRaises now = (st, db, true))
  ∧ (∀ e, st.activeServers.lookup serverId = some e → closeRaises = true →
        stop_server st db serverId closeRaises now = (st, db, false))
  ∧ (∀ e, st.activeServers.lookup serverId = some e → closeRaises = false →
        (stop_server st db serverId closeRaises now).2.2 = true
      ∧ (stop_server st db serverId closeRaises now).1.activeServers.lookup
          serverId = none
      ∧ dbFind (stop_server st db serverId closeRaises now).2.1 serverId =
          (dbFind db serverId).map (fun s =>
            { s with status := ServerStatus.inactive,
                     lastHealthCheck := some now })
      ∧ stop_server (stop_server st db serverId closeRaises now).1
            (stop_server st db serverId closeRaises now).2.1 serverId
            closeRaises now =
          ((stop_server st db serverId closeRaises now).1,
           (stop_server st db serverId closeRaises now).2.1, true)) := by
  refine ⟨fun h => ?_, fun e he hc => ?_, fun e he hc => ?_⟩
  · unfold stop_server; rw [h]
  · unfold stop_server; rw [he, hc]; rfl
  · have hstep : stop_server st db serverId closeRaises now =
        ({ st with
            activeServers := popEntry st.activeServers serverId,
            serverProcesses := popEntry st.serverProcesses serverId,
            httpClients := popEntry st.httpClients serverId,
            closed := e.handle :: st.closed },
         update_server_status db serverId .inactive now, true) := by
      unfold stop_server; rw [he, hc]; rfl
    refine ⟨?_, ?_, ?_, ?_⟩
    · rw [hstep]
    · rw [hstep]
      exact lookup_popEntry_self st.activeServers serverId
    · rw [hstep]
      exact dbFind_update db serverId .inactive now
    · rw [hstep]
      unfold stop_server
      simp [lookup_popEntry_self]

theorem stop_server_amended_witness :
    (stop_server c6St [c6Srv] 1 false 70).2.2 = true
  ∧ (stop_server c6St [c6Srv] 1 false 70).1.activeServers.lookup 1 = none
  ∧ dbFind (stop_server c6St [c6Srv] 1 false 70).2.1 1 =
      some { c6Srv with status := .inactive, lastHealthCheck := some 70 } := by
  have h := (stop_server_amended c6St [c6Srv] 1 false 70).2.2 ⟨.stdio, 5⟩
    rfl rfl
  exact ⟨h.1, h.2.1, h.2.2.1.trans rfl⟩

/-- C7: evaluation at the failing input.  The caller sends id 42; the
gateway's aggregate response envelope carries id null (it is built from
`params.get("id")`, and `params` has no `id` — the JSON-RPC id lives at
the top level of the request), so the caller-supplied identifier is not
preserved.  On direct routes the request sent downstream carries a
gateway-generated uuid in place of the caller's id, as the last
conjunct shows. -/
theorem id_preservation_failing :
    handle_mcp_request c7Sessions c7Proxy "sess-1" c7Request =
      Except.ok (Json.obj [("jsonrpc", Json.str "2.0"), ("id", Json.null),
        ("result", Json.arr [])])
  ∧ pyIndex c7Request "id" = Except.ok (Json.num 42)
  ∧ Json.null ≠ Json.num 42
  ∧ pyIndex (proxy_request_envelope "fresh-uuid" (Json.str "ping") Json.null)
      "id" = Except.ok (Json.str "fresh-uuid") := by
  refine ⟨rfl, rfl, fun h => Json.noConfusion h, rfl⟩

/-- C8: evaluation at the failing schedule.  Two concurrent sends on one
stdio transport (request ids `req-A`, `req-B`), scheduler order: A
writes, B writes, B reads, A reads; the provider answers in request
order.  Caller B's `readline` takes the next line off the shared pipe —
the response to A's request — so B receives the answer to `req-A`, not
to its own request, and A symmetrically receives the answer to `req-B`:
the code neither serializes sends nor demultiplexes by response id. -/
theorem stdio_correlation_failing :
    (stdioRun [.writeA, .writeB, .readB, .readA] "req-A" "req-B").2.2.received
      = some "req-A"
  ∧ (stdioRun [.writeA, .writeB, .readB, .readA] "req-A" "req-B").2.1.received
      = some "req-B"
  ∧ ("req-A" : String) ≠ "req-B" :=
  ⟨rfl, rfl, by decide⟩
